import Mathlib

/-!
Verification of the Mulit_Agents_Sales_Assistance repository core:
request router (graph/router.py), orchestration workflow (graph/workflow.py),
hybrid filter-and-scoring engine and prospect detail analyzer
(tools/hybrid_search.py), and the bounded conversation log (utils/helpers.py).

Python strings are modelled as lists of characters so that the primitive
operations (lower-casing, strip, substring test, split) reduce structurally.
-/

namespace SalesAssist

/-- ASCII lower-casing of one character, modelling Python str.lower on the
ASCII range used by every keyword the code compares against. -/
def lowerChar (c : Char) : Char :=
  if 65 ≤ c.toNat && c.toNat ≤ 90 then Char.ofNat (c.toNat + 32) else c

/-- Python str.lower over a character list. -/
def lowerL (s : List Char) : List Char := s.map lowerChar

/-- Whitespace test for Python str.strip. -/
def isWS (c : Char) : Bool := c == ' ' || c == '\t' || c == '\n' || c == '\r'

/-- Python str.strip: drop whitespace from both ends. -/
def trimL (s : List Char) : List Char :=
  ((s.dropWhile isWS).reverse.dropWhile isWS).reverse

/-- Python substring membership test (the in operator): true iff pat occurs
contiguously inside s. -/
def containsSub : List Char → List Char → Bool
  | [], pat => pat.isEmpty
  | c :: t, pat => pat.isPrefixOf (c :: t) || containsSub t pat

/-- Python str.split on the pipe character: result.split(chr(124)). -/
def splitOnPipe : List Char → List (List Char)
  | [] => [[]]
  | c :: t =>
    if c == '|' then [] :: splitOnPipe t
    else
      match splitOnPipe t with
      | [] => [[c]]
      | h :: r => (c :: h) :: r

/-- Number of pipe characters in a response string. -/
def pipeCount (s : List Char) : Nat := s.countP (fun c => c == '|')

theorem splitOnPipe_ne_nil (s : List Char) : splitOnPipe s ≠ [] := by
  induction s with
  | nil => simp [splitOnPipe]
  | cons c t ih =>
    simp only [splitOnPipe]
    split
    · simp
    · cases h : splitOnPipe t with
      | nil => simp
      | cons a r => simp

theorem length_splitOnPipe (s : List Char) :
    (splitOnPipe s).length = pipeCount s + 1 := by
  induction s with
  | nil => rfl
  | cons c t ih =>
    rcases hs : splitOnPipe t with _ | ⟨a, r⟩
    · exact absurd hs (splitOnPipe_ne_nil t)
    · rw [hs] at ih
      simp only [List.length_cons] at ih
      simp only [pipeCount, List.countP_cons] at ih ⊢
      by_cases hc : (c == '|') = true <;>
        simp [splitOnPipe, hc, hs] <;> omega

/-! ### Router (graph/router.py, route_requests, lines 33-61) -/

/-- The four route outcomes of route_requests; terminate models the
returned string "end". -/
inductive Route
  | prospecting
  | insights
  | communication
  | terminate
deriving DecidableEq

/-- The substring dispatch of router.py lines 54-61: checked in fixed
priority order prospecting, insights, communication, else "end". -/
def matchRoute (route : List Char) : Route :=
  if containsSub route ("prospecting".data) then Route.prospecting
  else if containsSub route ("insights".data) then Route.insights
  else if containsSub route ("communication".data) then Route.communication
  else Route.terminate

/-- route_requests response parsing (router.py lines 44-61).
With one pipe the route token is the second part, stripped and lower-cased;
with no pipe the whole response lower-cased.  With two or more pipes the
two-variable unpacking of result.split raises ValueError, modelled as none. -/
def route_requests (result : List Char) : Option Route :=
  match splitOnPipe result with
  | [_] => some (matchRoute (lowerL result))
  | [_, r] => some (matchRoute (lowerL (trimL r)))
  | _ => none

/-- The route token route_requests matches against, for responses with at
most one pipe. -/
def tokenOf (result : List Char) : List Char :=
  match splitOnPipe result with
  | [_, r] => lowerL (trimL r)
  | _ => lowerL result

/-- C1 (amended): for every classifier response containing at most one pipe
character, route selection is substring-based on the lower-cased route token
with fixed priority prospecting, insights, communication, Terminate; a token
containing both prospecting and insights resolves to Prospecting by that
priority, and when no pipe is present the whole lower-cased response is the
token.  The restriction to at most one pipe is forced: with two or more
pipes route_requests raises instead of selecting a route. -/
theorem router_token_dispatch (s : List Char) (h : pipeCount s ≤ 1) :
    route_requests s = some (matchRoute (tokenOf s))
    ∧ (containsSub (tokenOf s) ("prospecting".data) = true →
        matchRoute (tokenOf s) = Route.prospecting)
    ∧ (containsSub (tokenOf s) ("prospecting".data) = false →
       containsSub (tokenOf s) ("insights".data) = true →
        matchRoute (tokenOf s) = Route.insights)
    ∧ (containsSub (tokenOf s) ("prospecting".data) = false →
       containsSub (tokenOf s) ("insights".data) = false →
       containsSub (tokenOf s) ("communication".data) = true →
        matchRoute (tokenOf s) = Route.communication)
    ∧ (containsSub (tokenOf s) ("prospecting".data) = false →
       containsSub (tokenOf s) ("insights".data) = false →
       containsSub (tokenOf s) ("communication".data) = false →
        matchRoute (tokenOf s) = Route.terminate)
    ∧ (pipeCount s = 0 → tokenOf s = lowerL s) := by
  have hlen := length_splitOnPipe s
  refine ⟨?_, ?_, ?_, ?_, ?_, ?_⟩
  · rcases hsp : splitOnPipe s with _ | ⟨a, _ | ⟨b, _ | ⟨c, r⟩⟩⟩ <;>
      rw [hsp] at hlen <;> simp only [List.length_cons, List.length_nil] at hlen
    · exact absurd hsp (splitOnPipe_ne_nil s)
    · simp [route_requests, tokenOf, hsp]
    · simp [route_requests, tokenOf, hsp]
    · omega
  · intro hp
    simp [matchRoute, hp]
  · intro hp hi
    simp [matchRoute, hp, hi]
  · intro hp hi hc
    simp [matchRoute, hp, hi, hc]
  · intro hp hi hc
    simp [matchRoute, hp, hi, hc]
  · intro h0
    rcases hsp : splitOnPipe s with _ | ⟨a, _ | ⟨b, _ | ⟨c, r⟩⟩⟩ <;>
      rw [hsp] at hlen <;> simp only [List.length_cons, List.length_nil] at hlen
    · exact absurd hsp (splitOnPipe_ne_nil s)
    · simp [tokenOf, hsp]
    · omega
    · omega

/-- C1 witness: the amended theorem applied to a concrete one-pipe response. -/
theorem router_token_dispatch_witness :
    route_requests ("demandgen|prospecting".data)
      = some (matchRoute (tokenOf ("demandgen|prospecting".data))) :=
  (router_token_dispatch ("demandgen|prospecting".data) (by decide)).1

/-- C1 counterexample: a classifier response whose lower-cased text contains
the token prospecting, yet route_requests selects no route at all (the
two-variable unpacking of the pipe-split raises), refuting the claim as
stated for every response string. -/
theorem router_token_dispatch_cex :
    containsSub (lowerL ("salesrep|prospecting|now".data)) ("prospecting".data) = true
    ∧ route_requests ("salesrep|prospecting|now".data) = none := by decide

/-- C10: route_requests parsing is total exactly on responses with at most
one pipe character: with two or more pipes the two-variable unpacking of
result.split raises (modelled as none); with at most one pipe a route is
always returned. -/
theorem router_unpack_totality (s : List Char) :
    (2 ≤ pipeCount s → route_requests s = none)
    ∧ (pipeCount s ≤ 1 → (route_requests s).isSome = true) := by
  have hlen := length_splitOnPipe s
  constructor
  · intro h2
    rcases hsp : splitOnPipe s with _ | ⟨a, _ | ⟨b, _ | ⟨c, r⟩⟩⟩ <;>
      rw [hsp] at hlen <;> simp only [List.length_cons, List.length_nil] at hlen
    · exact absurd hsp (splitOnPipe_ne_nil s)
    · omega
    · omega
    · simp [route_requests, hsp]
  · intro h1
    rcases hsp : splitOnPipe s with _ | ⟨a, _ | ⟨b, _ | ⟨c, r⟩⟩⟩ <;>
      rw [hsp] at hlen <;> simp only [List.length_cons, List.length_nil] at hlen
    · exact absurd hsp (splitOnPipe_ne_nil s)
    · simp [route_requests, hsp]
    · simp [route_requests, hsp]
    · omega

/-- C10 witness: a concrete response with two pipes on which route_requests
raises. -/
theorem router_unpack_totality_witness :
    route_requests ("a|b|c".data) = none :=
  (router_unpack_totality ("a|b|c".data)).1 (by decide)

/-! ### Structured filtering (tools/hybrid_search.py, find_prospects_hybrid,
lines 89-118) -/

/-- Python str.lower on a Lean string. -/
def lowerS (s : String) : String := String.mk (lowerL s.data)

/-- Python substring membership on Lean strings. -/
def strContains (s pat : String) : Bool := containsSub s.data pat.data

/-- The four operators of the FilterCondition pydantic model
(hybrid_search.py line 17). -/
inductive Op
  | contains
  | not_contains
  | equals
  | not_equals
deriving DecidableEq

/-- FilterCondition: {field, operator, value} (hybrid_search.py lines 15-18). -/
structure FilterCondition where
  field : String
  op : Op
  value : String
deriving DecidableEq

/-- One DataFrame row for filtering purposes: column name to cell value,
every cell read through astype(str) as in the source.  Cells of columns
absent from the association list read as the empty string. -/
abbrev FRow := List (String × String)

/-- Cell access, pandas row lookup after astype(str). -/
def rowGet (r : FRow) (c : String) : String :=
  ((r.find? (fun p => p.1 == c)).map Prod.snd).getD ""

/-- One filter application step of the loop in find_prospects_hybrid lines
92-116: skip unknown columns, lower-case both sides, substring semantics for
contains, exact match for equals with the fuzzy category rescue (lines
103-112): when an equals filter on Primary Category matches nothing exactly,
retry the same value as a contains match and keep that set if non-empty. -/
def applyCondition (cols : List String) (rows : List FRow) (f : FilterCondition) :
    List FRow :=
  if cols.contains f.field then
    let val := lowerS f.value
    match f.op with
    | Op.contains => rows.filter (fun r => strContains (lowerS (rowGet r f.field)) val)
    | Op.equals =>
      let exact := rows.filter (fun r => lowerS (rowGet r f.field) == val)
      if exact.isEmpty && f.field == "Primary Category" then
        let fuzzy := rows.filter (fun r => strContains (lowerS (rowGet r f.field)) val)
        if fuzzy.isEmpty then exact else fuzzy
      else exact
    | Op.not_contains =>
      rows.filter (fun r => !(strContains (lowerS (rowGet r f.field)) val))
    | Op.not_equals => rows.filter (fun r => !(lowerS (rowGet r f.field) == val))
  else rows

/-- Conjunctive application of a FilterSet, the loop of lines 92-116. -/
def applyFilterSet (cols : List String) (rows : List FRow)
    (fs : List FilterCondition) : List FRow :=
  fs.foldl (applyCondition cols) rows

/-- C2: when an equals filter on the category field has an empty exact-match
set, the fuzzy category rescue returns exactly the rows a contains filter on
the same value would return (hence equal or a superset of them), and for any
other field an equals filter never rescues: it returns the plain exact-match
set even when that set is empty. -/
theorem category_rescue (cols : List String) (rows : List FRow) (v : String)
    (hcol : cols.contains "Primary Category" = true)
    (hempty : rows.filter
      (fun r => lowerS (rowGet r "Primary Category") == lowerS v) = []) :
    applyCondition cols rows ⟨"Primary Category", Op.equals, v⟩
      = rows.filter
          (fun r => strContains (lowerS (rowGet r "Primary Category")) (lowerS v))
    ∧ ∀ f : FilterCondition, f.op = Op.equals → f.field ≠ "Primary Category" →
        applyCondition cols rows f
          = if cols.contains f.field then
              rows.filter (fun r => lowerS (rowGet r f.field) == lowerS f.value)
            else rows := by
  constructor
  · simp only [applyCondition, hcol, if_true]
    rw [hempty]
    simp only [List.isEmpty_nil, Bool.true_and, beq_self_eq_true, if_true]
    split
    · rename_i hfz
      rw [List.isEmpty_iff] at hfz
      rw [hfz]
    · rfl
  · intro f hop hfield
    simp only [applyCondition]
    split
    · rw [hop]
      have hbeq : (f.field == "Primary Category") = false := by
        simpa using hfield
      simp [hbeq]
    · rfl

/-- C2 witness: the rescue theorem applied to a concrete dataset where an
exact category match is empty but a contains match is not. -/
theorem category_rescue_witness :
    applyCondition ["Prospect Business Name", "Primary Category", "City", "State"]
        [[("Prospect Business Name", "Acme IT"),
          ("Primary Category", "Computer Contractors"),
          ("City", "Austin"), ("State", "TX")]]
        ⟨"Primary Category", Op.equals, "Computer"⟩
      = [[("Prospect Business Name", "Acme IT"),
          ("Primary Category", "Computer Contractors"),
          ("City", "Austin"), ("State", "TX")]] := by
  have h := (category_rescue
    ["Prospect Business Name", "Primary Category", "City", "State"]
    [[("Prospect Business Name", "Acme IT"),
      ("Primary Category", "Computer Contractors"),
      ("City", "Austin"), ("State", "TX")]]
    "Computer" (by decide) (by decide)).1
  rw [h]
  decide

/-! ### Prospect analysis (tools/hybrid_search.py, _analyze_prospect,
lines 181-249) -/

/-- The parsed BuzzBoard signal bundle, as consulted by the scoring code.
Each field models buzzboard.get(name): none when the key is absent,
otherwise the stored value.  Reviews is none when the stored value is
missing or non-numeric; in every place the code reads it, a non-numeric
value behaves exactly like a missing one (the isinstance guard). -/
structure Buzzboard where
  googlePlaces : Option String
  reviews : Option Int
  sem : Option String
  fbLatestPosts : Option String
  instagram : Option String
  twitter : Option String
deriving DecidableEq

/-- One dataset row as consumed by the analysis code. -/
structure PRow where
  name : String
  primaryCategory : String
  city : String
  state : String
  buzzboard : Buzzboard
deriving DecidableEq

/-- Local-presence sub-score (lines 191-194): +3 Google Places, +2 more than
10 reviews, +1 recent FB posts. -/
def local_presence_score (b : Buzzboard) : Nat :=
  (if b.googlePlaces == some "Yes" then 3 else 0)
  + (match b.reviews with
     | some n => if n > 10 then 2 else 0
     | none => 0)
  + (if b.fbLatestPosts == some "Yes" then 1 else 0)

/-- SEM sub-score (line 196): 3 when the SEM signal is Yes, else 0. -/
def sem_score (b : Buzzboard) : Nat := if b.sem == some "Yes" then 3 else 0

/-- Query gate of the local-presence rule (line 204). -/
def hasLowLP (query : List Char) : Bool :=
  containsSub (lowerL query) ("low local presence".data)
  || containsSub (lowerL query) ("weak local presence".data)

/-- Query gate of the high-SEM rule (line 213). -/
def hasHighSEM (query : List Char) : Bool :=
  containsSub (lowerL query) ("high google ads".data)
  || containsSub (lowerL query) ("high sem".data)
  || containsSub (lowerL query) ("google ads spend".data)
  || containsSub (lowerL query) ("high ads spend".data)

/-- The local-presence clause (lines 204-210) acting on the base relevance
score of 1: returns the relevance score together with the gaps and
opportunities accumulated so far. -/
def lp_clause (query : List Char) (relaxed : Bool) (lps : Nat) :
    Nat × List String × List String :=
  if hasLowLP query then
    if lps ≤ 2 then
      (1 + 3, ["Weak Local Presence"], ["Improve Google My Business & Local SEO"])
    else if !relaxed then (0, [], [])
    else (1, [], [])
  else (1, [], [])

/-- The high-SEM clause (lines 213-225): none models the early return of the
filtered-out marker dict; some carries the updated relevance score and
opportunities. -/
def sem_clause (query : List Char) (relaxed : Bool) (semScore : Nat)
    (rel : Nat) (opps : List String) : Option (Nat × List String) :=
  if hasHighSEM query then
    if 3 ≤ semScore then some (rel + 3, opps ++ ["Optimize Current SEM Campaigns"])
    else if !relaxed then none
    else some (rel, opps)
  else some (rel, opps)

/-- The general gaps appended independently of the query (lines 228-233);
buzzboard.get with default No. -/
def general_gaps (b : Buzzboard) : List String :=
  (if b.googlePlaces.getD "No" == "No" then ["No Google Places Listing"] else [])
  ++ (if b.sem.getD "No" == "No" then ["No Paid Search Activity"] else [])
  ++ (if b.fbLatestPosts.getD "No" == "No" then ["Inactive Social Media"] else [])

/-- Python semicolon-join with a default for the empty list, modelling
(chr(59) + chr(32)).join(xs) if xs else dflt. -/
def joinSemi (l : List String) (dflt : String) : String :=
  if l.isEmpty then dflt else String.intercalate "; " l

/-- The full analysis record returned at lines 239-249. -/
structure Analysis where
  name : String
  primaryCategory : String
  location : String
  localPresenceScore : Nat
  semActivity : String
  keyGaps : String
  opportunities : String
  matchType : String
  relevance_score : Nat
deriving DecidableEq

/-- Result of _analyze_prospect: either the early-return filtered-out marker
dict of lines 221-225 or the full analysis record of lines 239-249. -/
inductive AnalysisResult
  | filtered (name : String) (status : String) (relevance_score : Nat)
  | full (a : Analysis)
deriving DecidableEq

/-- _analyze_prospect (lines 181-249): base relevance 1, the query-gated
local-presence and high-SEM clauses in order, general gaps, the relaxed-mode
gap bonus, then the result record. -/
def analyze_prospect (row : PRow) (query : List Char) (relaxed : Bool) :
    AnalysisResult :=
  let b := row.buzzboard
  let lps := local_presence_score b
  let semSc := sem_score b
  let r1 := lp_clause query relaxed lps
  match sem_clause query relaxed semSc r1.1 r1.2.2 with
  | none =>
    AnalysisResult.filtered row.name "Filtered out - No Google Ads activity found" 0
  | some (rel2, opps2) =>
    let gaps2 := r1.2.1 ++ general_gaps b
    let rel3 := if relaxed && !gaps2.isEmpty then rel2 + gaps2.length else rel2
    AnalysisResult.full
      { name := row.name
        primaryCategory := row.primaryCategory
        location := row.city ++ ", " ++ row.state
        localPresenceScore := lps
        semActivity := if 0 < semSc then "Active" else "None"
        keyGaps := joinSemi gaps2 "Strong Digital Presence"
        opportunities := joinSemi opps2 "Maintain Current Strategy"
        matchType := if relaxed then "Relaxed" else "Strict"
        relevance_score := rel3 }

/-- The relevance score carried by either kind of analysis result. -/
def relevance_of : AnalysisResult → Nat
  | AnalysisResult.filtered _ _ r => r
  | AnalysisResult.full a => a.relevance_score

/-- True when _analyze_prospect returned the full record rather than the
filtered-out marker. -/
def isFullResult : AnalysisResult → Bool
  | AnalysisResult.filtered _ _ _ => false
  | AnalysisResult.full _ => true

theorem lp_clause_not_gated (q : List Char) (relaxed : Bool) (lps : Nat)
    (h : hasLowLP q = false) : lp_clause q relaxed lps = (1, [], []) := by
  simp [lp_clause, h]

theorem lp_clause_low (q : List Char) (relaxed : Bool) (lps : Nat)
    (h : hasLowLP q = true) (hl : lps ≤ 2) :
    lp_clause q relaxed lps
      = (1 + 3, ["Weak Local Presence"],
         ["Improve Google My Business & Local SEO"]) := by
  simp [lp_clause, h, hl]

theorem lp_clause_high_strict (q : List Char) (lps : Nat)
    (h : hasLowLP q = true) (hl : 2 < lps) :
    lp_clause q false lps = (0, [], []) := by
  simp [lp_clause, h, Nat.not_le.mpr hl]

theorem sem_clause_not_gated (q : List Char) (relaxed : Bool)
    (s rel : Nat) (opps : List String) (h : hasHighSEM q = false) :
    sem_clause q relaxed s rel opps = some (rel, opps) := by
  simp [sem_clause, h]

theorem sem_clause_active (q : List Char) (relaxed : Bool)
    (s rel : Nat) (opps : List String) (h : hasHighSEM q = true) (hs : 3 ≤ s) :
    sem_clause q relaxed s rel opps
      = some (rel + 3, opps ++ ["Optimize Current SEM Campaigns"]) := by
  simp [sem_clause, h, hs]

theorem sem_clause_exclude (q : List Char) (s rel : Nat) (opps : List String)
    (h : hasHighSEM q = true) (hs : s < 3) :
    sem_clause q false s rel opps = none := by
  simp [sem_clause, h, Nat.not_le.mpr hs]

/-- C3 (amended): the local-presence rule is query-gated: without the
low/weak-local-presence phrase, strict-mode analysis never returns a full
record with relevance below the base score 1 (the only zero outcome is the
high-SEM marker).  With the phrase present and no high-SEM phrase in the
query, strict mode gives relevance 4 to rows with sub-score at most 2 and
relevance 0 to rows above 2; the clause itself adds +3 to the base score in
both modes when the sub-score is at most 2.  The exclusion of high-SEM
queries is forced: when the query also carries a high-SEM phrase and the row
has SEM activity, the SEM bonus is added after the zeroing, yielding
relevance 3 instead of 0. -/
theorem local_presence_rule (row : PRow) (q : List Char) :
    (hasLowLP q = false →
      isFullResult (analyze_prospect row q false) = true →
      1 ≤ relevance_of (analyze_prospect row q false))
    ∧ (hasLowLP q = true → hasHighSEM q = false →
        (local_presence_score row.buzzboard ≤ 2 →
          isFullResult (analyze_prospect row q false) = true
          ∧ relevance_of (analyze_prospect row q false) = 4)
        ∧ (2 < local_presence_score row.buzzboard →
          isFullResult (analyze_prospect row q false) = true
          ∧ relevance_of (analyze_prospect row q false) = 0))
    ∧ (∀ relaxed : Bool, hasLowLP q = true →
        local_presence_score row.buzzboard ≤ 2 →
        (lp_clause q relaxed (local_presence_score row.buzzboard)).1 = 1 + 3) := by
  refine ⟨?_, ?_, ?_⟩
  · intro hlow hfull
    by_cases hsem : hasHighSEM q = true
    · by_cases hact : 3 ≤ sem_score row.buzzboard
      · simp [analyze_prospect, lp_clause_not_gated q false _ hlow,
          sem_clause_active q false _ _ _ hsem hact, relevance_of]
      · exfalso
        simp [analyze_prospect, lp_clause_not_gated q false _ hlow,
          sem_clause_exclude q _ _ _ hsem (Nat.lt_of_not_le hact),
          isFullResult] at hfull
    · simp [analyze_prospect, lp_clause_not_gated q false _ hlow,
        sem_clause_not_gated q false _ _ _ (Bool.eq_false_iff.mpr hsem),
        relevance_of]
  · intro hlow hsem
    constructor
    · intro hl
      simp [analyze_prospect, lp_clause_low q false _ hlow hl,
        sem_clause_not_gated q false _ _ _ hsem, relevance_of, isFullResult]
    · intro hl
      simp [analyze_prospect, lp_clause_high_strict q _ hlow hl,
        sem_clause_not_gated q false _ _ _ hsem, relevance_of, isFullResult]
  · intro relaxed hlow hl
    rw [lp_clause_low q relaxed _ hlow hl]

/-- C3 witness: the amended theorem applied to a concrete low-presence query
and two concrete rows, one below and one above the sub-score threshold. -/
theorem local_presence_rule_witness :
    relevance_of (analyze_prospect
        ⟨"Corner Bakery", "Bakeries", "Waco", "TX",
          ⟨none, none, none, none, none, none⟩⟩
        ("show businesses with low local presence".data) false) = 4
    ∧ relevance_of (analyze_prospect
        ⟨"Hi-Fi Media", "Computer Contractors", "Austin", "TX",
          ⟨some "Yes", some 20, some "Yes", some "Yes", none, none⟩⟩
        ("show businesses with low local presence".data) false) = 0 :=
  ⟨(((local_presence_rule
      ⟨"Corner Bakery", "Bakeries", "Waco", "TX",
        ⟨none, none, none, none, none, none⟩⟩
      ("show businesses with low local presence".data)).2.1
      (by decide) (by decide)).1 (by decide)).2,
   (((local_presence_rule
      ⟨"Hi-Fi Media", "Computer Contractors", "Austin", "TX",
        ⟨some "Yes", some 20, some "Yes", some "Yes", none, none⟩⟩
      ("show businesses with low local presence".data)).2.1
      (by decide) (by decide)).2 (by decide)).2⟩

/-- C3 counterexample: a strict-mode row whose local-presence sub-score
exceeds 2, under a query containing the gating phrase, ends with relevance 3
rather than the claimed 0, because the query also carries a high-SEM phrase
and the SEM bonus is added after the zeroing. -/
theorem local_presence_rule_cex :
    hasLowLP ("find low local presence and high sem".data) = true
    ∧ 2 < local_presence_score ⟨some "Yes", some 20, some "Yes", some "Yes", none, none⟩
    ∧ relevance_of (analyze_prospect
        ⟨"Hi-Fi Media", "Computer Contractors", "Austin", "TX",
          ⟨some "Yes", some 20, some "Yes", some "Yes", none, none⟩⟩
        ("find low local presence and high sem".data) false) = 3 := by
  decide

/-- C4: under a query containing a high-SEM phrase, a row with SEM sub-score
at least 3 gains +3 relevance on top of what the local-presence clause
produced, while in strict mode a row without SEM activity is excluded early:
the analysis returns the per-row filtered-out marker payload (business name,
status text, relevance 0) instead of the full record. -/
theorem high_sem_rule (row : PRow) (q : List Char)
    (h : hasHighSEM q = true) :
    (3 ≤ sem_score row.buzzboard →
      isFullResult (analyze_prospect row q false) = true
      ∧ relevance_of (analyze_prospect row q false)
          = (lp_clause q false (local_presence_score row.buzzboard)).1 + 3)
    ∧ (sem_score row.buzzboard < 3 →
      analyze_prospect row q false
        = AnalysisResult.filtered row.name
            "Filtered out - No Google Ads activity found" 0) := by
  constructor
  · intro hact
    simp [analyze_prospect, sem_clause_active q false _ _ _ h hact,
      relevance_of, isFullResult]
  · intro hno
    simp [analyze_prospect, sem_clause_exclude q _ _ _ h hno]

/-- C4 witness: the theorem applied to a concrete high-SEM query and a
concrete row without SEM activity, producing the marker payload. -/
theorem high_sem_rule_witness :
    analyze_prospect
        ⟨"Corner Bakery", "Bakeries", "Waco", "TX",
          ⟨none, none, none, none, none, none⟩⟩
        ("companies with high google ads budgets".data) false
      = AnalysisResult.filtered "Corner Bakery"
          "Filtered out - No Google Ads activity found" 0 :=
  (high_sem_rule
    ⟨"Corner Bakery", "Bakeries", "Waco", "TX",
      ⟨none, none, none, none, none, none⟩⟩
    ("companies with high google ads budgets".data) (by decide)).2 (by decide)

/-! ### Detail analyzer scores (tools/hybrid_search.py, lines 292-307) -/

/-- _calculate_seo_score (lines 292-299): +4 Google Places, +3 SEM, +3 more
than 20 reviews, capped at 10. -/
def calculate_seo_score (b : Buzzboard) : Nat :=
  min ((if b.googlePlaces == some "Yes" then 4 else 0)
       + (if b.sem == some "Yes" then 3 else 0)
       + (match b.reviews with
          | some n => if n > 20 then 3 else 0
          | none => 0)) 10

/-- _calculate_social_score (lines 301-307): +5 recent FB posts,
+3 Instagram, +2 Twitter, capped at 10. -/
def calculate_social_score (b : Buzzboard) : Nat :=
  min ((if b.fbLatestPosts == some "Yes" then 5 else 0)
       + (if b.instagram == some "Yes" then 3 else 0)
       + (if b.twitter == some "Yes" then 2 else 0)) 10

/-- Composite digital score, get_prospect_details line 266: the arithmetic
mean of the SEO and social sub-scores. -/
def d_score (b : Buzzboard) : ℚ :=
  (calculate_seo_score b + calculate_social_score b) / 2

/-- C5: for every signal bundle the local-presence sub-score lies in [0,6],
the SEO and social sub-scores lie in [0,10], and the composite digital score
(the mean of SEO and social) lies in [0,10].  Sub-scores are natural
numbers, so the lower bounds are the stated nonnegativity. -/
theorem score_bounds (b : Buzzboard) :
    local_presence_score b ≤ 6
    ∧ calculate_seo_score b ≤ 10
    ∧ calculate_social_score b ≤ 10
    ∧ 0 ≤ d_score b ∧ d_score b ≤ 10 := by
  have hlp : local_presence_score b ≤ 6 := by
    unfold local_presence_score
    cases hr : b.reviews <;> dsimp only <;> split_ifs <;> omega
  have hseo : calculate_seo_score b ≤ 10 := Nat.min_le_right _ 10
  have hsoc : calculate_social_score b ≤ 10 := Nat.min_le_right _ 10
  refine ⟨hlp, hseo, hsoc, ?_, ?_⟩
  · unfold d_score
    positivity
  · unfold d_score
    rw [div_le_iff₀ (by norm_num : (0:ℚ) < 2)]
    have h1 : (calculate_seo_score b : ℚ) ≤ 10 := by exact_mod_cast hseo
    have h2 : (calculate_social_score b : ℚ) ≤ 10 := by exact_mod_cast hsoc
    linarith

/-! ### SWOT generation (tools/hybrid_search.py, _generate_swot_analysis,
lines 309-342) -/

/-- The SWOT report dict. -/
structure Swot where
  strengths : List String
  weaknesses : List String
  opportunities : List String
  threats : List String
deriving DecidableEq

/-- _generate_swot_analysis (lines 309-342): strengths and weaknesses from
the three core signals; opportunities gets the digital-transformation
catch-all only when strengths is empty, plus one entry per missing Google
Places or SEM signal; strengths falls back to the limited-digital-presence
catch-all at return time. -/
def generate_swot_analysis (b : Buzzboard) : Swot :=
  let strengths :=
    (if b.googlePlaces == some "Yes"
      then ["Strong local presence with Google Places listing"] else [])
    ++ (if b.sem == some "Yes" then ["Active in paid search advertising"] else [])
    ++ (if b.fbLatestPosts == some "Yes"
      then ["Maintains active social media presence"] else [])
  let weaknesses :=
    (if b.googlePlaces != some "Yes"
      then ["Missing Google Places listing - invisible in local searches"] else [])
    ++ (if b.sem != some "Yes"
      then ["No paid search presence - missing potential leads"] else [])
    ++ (if b.fbLatestPosts != some "Yes"
      then ["Inactive social media - poor customer engagement"] else [])
  let opportunities :=
    (if strengths.isEmpty then ["Complete digital transformation opportunity"] else [])
    ++ (if b.googlePlaces != some "Yes"
      then ["Establish Google My Business for local visibility"] else [])
    ++ (if b.sem != some "Yes" then ["Launch targeted Google Ads campaigns"] else [])
  { strengths := if strengths.isEmpty then ["Limited digital presence"] else strengths
    weaknesses := weaknesses
    opportunities := opportunities
    threats := ["Competitors with stronger digital presence"] }

/-- C6 (amended): the SWOT strengths list is never empty (the
limited-digital-presence catch-all), but the opportunities list is empty
exactly when both the Google Places and SEM signals are Yes: the
digital-transformation catch-all is keyed on empty strengths, not on empty
weaknesses, so a report can show an empty opportunities section. -/
theorem swot_sections (b : Buzzboard) :
    (generate_swot_analysis b).strengths ≠ []
    ∧ ((generate_swot_analysis b).opportunities = []
        ↔ b.googlePlaces = some "Yes" ∧ b.sem = some "Yes") := by
  unfold generate_swot_analysis
  by_cases hgp : b.googlePlaces = some "Yes" <;>
    by_cases hsem : b.sem = some "Yes" <;>
      by_cases hfb : b.fbLatestPosts = some "Yes" <;>
        simp [hgp, hsem, hfb]

/-- C6 counterexample: a record with every core signal present yields a SWOT
report with no weaknesses and an empty opportunities section, refuting both
the never-empty-section claim and the digital-transformation catch-all for
the no-weaknesses case. -/
theorem swot_sections_cex :
    (generate_swot_analysis
        ⟨some "Yes", some 30, some "Yes", some "Yes", some "Yes", some "Yes"⟩).weaknesses
      = []
    ∧ (generate_swot_analysis
        ⟨some "Yes", some 30, some "Yes", some "Yes", some "Yes", some "Yes"⟩).opportunities
      = [] := by
  decide

/-! ### Market trends (tools/hybrid_search.py, _analyze_market_trends,
lines 358-413) -/

/-- One trend statement, each constructor one of the formatted strings of
lines 401-403 and 411 with its interpolated percentage; limitedMarketData is
the fixed string of line 374. -/
inductive TrendStmt
  | highGooglePlaces (percent : ℚ) (category : String)
  | growingSEM (percent : ℚ)
  | lowSocial (percent : ℚ)
  | standardAdoption
  | limitedMarketData
deriving DecidableEq

/-- One competitor statement, each constructor one of the strings of lines
406-408; needsMoreData is the fixed string of line 375. -/
inductive CompetitorStmt
  | similarCount (n : Nat) (location : String)
  | strongLocalSEO
  | majorityPaidSearch
  | needsMoreData
deriving DecidableEq

/-- The dict returned by _analyze_market_trends. -/
structure TrendsOut where
  trends : List TrendStmt
  competitors : List CompetitorStmt
deriving DecidableEq

/-- The peer group of lines 364-367: rows of the dataset sharing the
prospect's Primary Category and State, by exact equality. -/
def peer_group (df : List PRow) (r : PRow) : List PRow :=
  df.filter (fun x => x.primaryCategory == r.primaryCategory && x.state == r.state)

/-- The percentage-computing branch of _analyze_market_trends (lines
379-413), the only place the division by the peer-group size occurs. -/
def compute_trends (similar : List PRow) (category location : String) : TrendsOut :=
  let total := similar.length
  let gp := (similar.countP (fun x => x.buzzboard.googlePlaces == some "Yes"))
  let semc := (similar.countP (fun x => x.buzzboard.sem == some "Yes"))
  let soc := (similar.countP (fun x => x.buzzboard.fbLatestPosts == some "Yes"))
  let gpPercent : ℚ := gp / total * 100
  let semPercent : ℚ := semc / total * 100
  let socPercent : ℚ := soc / total * 100
  let trends :=
    (if gpPercent > 70 then [TrendStmt.highGooglePlaces gpPercent category] else [])
    ++ (if semPercent > 50 then [TrendStmt.growingSEM semPercent] else [])
    ++ (if socPercent < 30 then [TrendStmt.lowSocial socPercent] else [])
  let competitors :=
    [CompetitorStmt.similarCount (total - 1) location]
    ++ (if gpPercent > 80 then [CompetitorStmt.strongLocalSEO] else [])
    ++ (if semPercent > 60 then [CompetitorStmt.majorityPaidSearch] else [])
  { trends := if trends.isEmpty then [TrendStmt.standardAdoption] else trends
    competitors := competitors }

/-- _analyze_market_trends (lines 358-413): peer group by category and
state; groups of size at most 1 report the fixed insufficient-data
statements without touching the percentage branch. -/
def analyze_market_trends (df : List PRow) (r : PRow) : TrendsOut :=
  let similar := peer_group df r
  if similar.length ≤ 1 then
    { trends := [TrendStmt.limitedMarketData]
      competitors := [CompetitorStmt.needsMoreData] }
  else compute_trends similar r.primaryCategory r.state

/-- C7: for every record whose peer group has at most one member, the
market-trend analysis returns the fixed insufficient-data trend and
competitor statements and never enters the percentage branch; the division
by the peer-group size is reached only when the group has at least two
members. -/
theorem market_trends_small_group (df : List PRow) (r : PRow) :
    ((peer_group df r).length ≤ 1 →
      analyze_market_trends df r
        = { trends := [TrendStmt.limitedMarketData]
            competitors := [CompetitorStmt.needsMoreData] })
    ∧ (1 < (peer_group df r).length →
      analyze_market_trends df r
        = compute_trends (peer_group df r) r.primaryCategory r.state) := by
  constructor
  · intro h
    simp [analyze_market_trends, h]
  · intro h
    simp [analyze_market_trends, Nat.not_le.mpr h]

/-- C7 witness: a dataset where only the queried business shares its
category and state, reported as insufficient data. -/
theorem market_trends_small_group_witness :
    analyze_market_trends
        [⟨"Corner Bakery", "Bakeries", "Waco", "TX",
            ⟨none, none, none, none, none, none⟩⟩,
         ⟨"Plano Plumbing", "Plumbing", "Plano", "TX",
            ⟨some "Yes", none, none, none, none, none⟩⟩]
        ⟨"Corner Bakery", "Bakeries", "Waco", "TX",
          ⟨none, none, none, none, none, none⟩⟩
      = { trends := [TrendStmt.limitedMarketData]
          competitors := [CompetitorStmt.needsMoreData] } :=
  (market_trends_small_group
    [⟨"Corner Bakery", "Bakeries", "Waco", "TX",
        ⟨none, none, none, none, none, none⟩⟩,
     ⟨"Plano Plumbing", "Plumbing", "Plano", "TX",
        ⟨some "Yes", none, none, none, none, none⟩⟩]
    ⟨"Corner Bakery", "Bakeries", "Waco", "TX",
      ⟨none, none, none, none, none, none⟩⟩).1 (by decide)

/-! ### Conversation memory (utils/helpers.py, run_conversation,
lines 16-27) -/

/-- One entry of the conversation history log: the appended dict holds the
query and timestamp, and the response is attached after the turn. -/
structure HistEntry where
  query : String
  timestamp : String
  response : Option String
deriving DecidableEq

/-- The append-then-truncate step of run_conversation lines 19-26: append
the new entry, then keep only the last 10 entries when the length exceeds
10 (the Python slice with the last ten elements). -/
def append_turn (history : List HistEntry) (e : HistEntry) : List HistEntry :=
  let h := history ++ [e]
  if 10 < h.length then h.drop (h.length - 10) else h

/-- C8: the conversation history is a FIFO-bounded log: after every append
the history holds at most 10 entries, the retained entries form a suffix of
the appended log (so the dropped entries are exactly the oldest ones, order
preserved), and the retained length is the minimum of the appended length
and 10 (so exactly the most recent 10 are kept once the bound is hit). -/
theorem conversation_log_fifo (h : List HistEntry) (e : HistEntry) :
    (append_turn h e).length ≤ 10
    ∧ append_turn h e = (h ++ [e]).drop (h.length + 1 - 10)
    ∧ (∃ dropped, dropped ++ append_turn h e = h ++ [e])
    ∧ (append_turn h e).length = min (h.length + 1) 10 := by
  have hlen : (h ++ [e]).length = h.length + 1 := by simp
  unfold append_turn
  by_cases hb : 10 < (h ++ [e]).length
  · simp only [hb, if_true]
    refine ⟨?_, ?_, ?_, ?_⟩
    · rw [List.length_drop]
      omega
    · rw [hlen]
    · exact ⟨(h ++ [e]).take ((h ++ [e]).length - 10), List.take_append_drop _ _⟩
    · rw [List.length_drop]
      omega
  · simp only [hb, if_false]
    refine ⟨?_, ?_, ?_, ?_⟩
    · omega
    · rw [show h.length + 1 - 10 = 0 by omega, List.drop_zero]
    · exact ⟨[], by simp⟩
    · omega

/-! ### Orchestration turn (graph/workflow.py, create_workflow, lines 5-31,
with utils/helpers.py run_conversation and main.py run_query as callers) -/

/-- The terminal outcome of one state-machine execution: which handler node
ran before END, or a direct END for the end route. -/
inductive TurnOutcome
  | prospecting
  | insights
  | communication
  | terminate
deriving DecidableEq

/-- One turn of the compiled workflow.  The classifier argument models the
router chain invocation at router.py lines 38-41: ok carries the response
text, error a raised exception.  create_workflow installs route_requests as
the conditional entry point with no surrounding try/except, and neither
route_requests, create_workflow nor run_conversation catches exceptions, so
a classifier failure (and the ValueError of the pipe unpacking) propagates
out of the turn unchanged. -/
def run_turn (classifier : Except String (List Char)) : Except String TurnOutcome :=
  match classifier with
  | Except.error e => Except.error e
  | Except.ok response =>
    match route_requests response with
    | none => Except.error "ValueError: too many values to unpack"
    | some Route.prospecting => Except.ok TurnOutcome.prospecting
    | some Route.insights => Except.ok TurnOutcome.insights
    | some Route.communication => Except.ok TurnOutcome.communication
    | some Route.terminate => Except.ok TurnOutcome.terminate

/-- C9: evaluation of the turn at a raising classifier.  The claim says the
state machine translates a classifier failure into a Terminate route with an
error marker; the code instead propagates the exception unchanged out of the
turn, which therefore never completes with a terminate outcome. -/
theorem turn_propagates_classifier_failure :
    run_turn (Except.error "Groq API timeout")
      = Except.error "Groq API timeout"
    ∧ (run_turn (Except.error "Groq API timeout")).isOk = false := by
  exact ⟨rfl, rfl⟩

end SalesAssist
